import Mathlib

/-!
Verification of the napalm-sros session and configuration-transaction engine
(`src/napalm_sros/sros.py` and `src/napalm_sros/api/util.py`) against its
natural-language specification.

The Python code is shallowly embedded: pure string manipulation is translated
to executable Lean functions on `String`/`List Char`; the stateful driver
(`NokiaSROSDriver`) becomes explicit state passing over a small state record,
with the remote device (NETCONF server, SSH shell) abstracted as oracles
supplied as arguments; Python exceptions become `Except` results; RPC and
shell side effects are recorded in an event trace.
-/

namespace NapalmSros

/-! ### Python string primitives

Executable models of the Python `str` operations the driver uses:
`strip`/`lstrip`/`rstrip` (with Python's whitespace set), the `in` substring
test, and `str.split(sep)` with an explicit separator. -/

/-- Python's whitespace set for `str.strip()` (and the ASCII part of the
regex class `\s`): space, tab, newline, carriage return, vertical tab,
form feed. -/
def isPyWs (c : Char) : Bool :=
  c = ' ' || c = '\t' || c = '\n' || c = '\r' || c = '\x0b' || c = '\x0c'

/-- Remove leading characters satisfying `isPyWs`: Python `str.lstrip()`. -/
def lstripChars (l : List Char) : List Char :=
  l.dropWhile isPyWs

/-- Remove trailing characters satisfying `p`: the character-list core of
Python `str.rstrip()`. -/
def rstripOn (p : Char → Bool) : List Char → List Char
  | [] => []
  | c :: t =>
    let r := rstripOn p t
    if r.isEmpty then (if p c then [] else [c]) else c :: r

/-- Python `str.lstrip()`. -/
def pyLstrip (s : String) : String :=
  ⟨lstripChars s.data⟩

/-- Python `str.rstrip()`. -/
def pyRstrip (s : String) : String :=
  ⟨rstripOn isPyWs s.data⟩

/-- Python `str.strip()`. -/
def pyStrip (s : String) : String :=
  ⟨rstripOn isPyWs (lstripChars s.data)⟩

/-- Python `str.rstrip("\n")`, used by `compare_config`. -/
def pyRstripNl (s : String) : String :=
  ⟨rstripOn (fun c => c = '\n') s.data⟩

/-- Does `needle` occur as a contiguous sublist of the argument?  Core of
Python's `needle in hay` substring test. -/
def subAux (needle : List Char) : List Char → Bool
  | [] => needle.isEmpty
  | c :: t => needle.isPrefixOf (c :: t) || subAux needle t

/-- Python's `needle in hay` substring containment test. -/
def pyIn (needle hay : String) : Bool :=
  subAux needle.data hay.data

/-- Fuel-driven splitter: splits the character list at every (non-overlapping,
leftmost-first) occurrence of the non-empty separator `sep`.  The fuel is
only there to make the recursion structural; any fuel above the input length
gives Python's `str.split(sep)` behaviour. -/
def pySplitFuel (sep : List Char) : Nat → List Char → List (List Char)
  | 0, l => [l]
  | _ + 1, [] => [[]]
  | n + 1, c :: t =>
    if sep.isPrefixOf (c :: t) then
      [] :: pySplitFuel sep n (List.drop (sep.length - 1) t)
    else
      match pySplitFuel sep n t with
      | [] => [[c]]
      | r :: rs => (c :: r) :: rs

/-- Python `hay.split(sep)` for a non-empty explicit separator `sep`. -/
def pySplit (hay sep : String) : List String :=
  (pySplitFuel sep.data (hay.data.length + 1) hay.data).map String.mk

/-- Model of `re.compile("\*?(.*?)(>.*)*#\s").search(item)` succeeding: since
the leading `\*?`, the lazy `(.*?)` and the starred group can all match the
empty string at any start position, the pattern matches exactly when the line
contains a `#` immediately followed by a whitespace character. -/
def hashWsAux : List Char → Bool
  | [] => false
  | [_] => false
  | a :: b :: t => (a = '#' && isPyWs b) || hashWsAux (b :: t)

/-- Does `cmd_line_pattern.search(item)` (the shell prompt pattern of
`sros.py`) find a match in `item`? -/
def cmd_line_matches (item : String) : Bool :=
  hashWsAux item.data

/-! ### The structured extraction helper `_find_txt`

Embeds `NokiaSROSDriver._find_txt` (src/napalm_sros/sros.py lines 156-190;
the module-level copy in src/napalm_sros/api/util.py lines 26-61 has the same
control flow).  The call `xml_tree.xpath(path, namespaces=...)` is abstracted
as an `XPathOutcome` oracle: lxml either raises (malformed expression,
invalid input, ...) or returns a list of matches, each match being an element
node (possibly without text) or a non-element value (attribute / string /
primitive, already rendered through Python `str`). -/

/-- One item of an XPath result list: an element node with optional text, or
a non-element (attribute/primitive) value as its `str` image. -/
inductive XPathItem where
  | element (text : Option String)
  | prim (value : String)
deriving DecidableEq

/-- Outcome of the `xml_tree.xpath(...)` call: a result list, or a raised
exception carrying a message. -/
inductive XPathOutcome where
  | ok (items : List XPathItem)
  | err (msg : String)
deriving DecidableEq

/-- The `try`-block body of `_find_txt` after a successful xpath call:
`value` starts as `""`; a first match that is an element contributes its
stripped text (or leaves `""` when the node has no text); a non-element first
match is taken as-is; an empty result list leaves `""`. -/
def find_txt_extract (items : List XPathItem) : String :=
  match items with
  | [] => ""
  | XPathItem.element none :: _ => ""
  | XPathItem.element (some t) :: _ => pyStrip t
  | XPathItem.prim v :: _ => v

/-- Embedding of `_find_txt`: the `except Exception` arm catches any error
raised by the xpath evaluation, logs it, and sets `value = default`; the
function then returns `str(value)`.  The result is `Except.ok` precisely
because the handler swallows the exception. -/
def find_txt (o : XPathOutcome) (default : String) : Except String String :=
  match o with
  | XPathOutcome.ok items => Except.ok (find_txt_extract items)
  | XPathOutcome.err _ => Except.ok default

/-! ### Driver state machine

State, configuration flags, remote oracles and the event trace for the
transaction engine of `NokiaSROSDriver`. -/

/-- Immutable configuration flags from `__init__` / `optional_args`
(src/napalm_sros/sros.py lines 76-77). -/
structure Config where
  lock_disable : Bool
  session_config_lock : Bool
deriving DecidableEq

/-- Mutable per-session driver state: the believed-lock-held flag
`self.locked` and the active-format flag `self.fmt` (`None` until a load
determines it). -/
structure DriverState where
  locked : Bool
  fmt : Option String
deriving DecidableEq

/-- Observable side effects on the remote device: NETCONF RPCs and batches of
CLI commands sent through the interactive shell. -/
inductive Event where
  | lockRpc
  | unlockRpc
  | editConfig (op : String)
  | validateRpc
  | commitRpc
  | discardRpc
  | cli (cmds : List String)
deriving DecidableEq

/-- The interactive shell, abstracted: `_perform_cli_commands(cmds)` returns
the accumulated output buffer for the batch `cmds`. -/
def ShellOracle : Type :=
  List String → String

/-- Failure kinds surfaced by the driver.  `MergeConfigException()` and
`ReplaceConfigException()` are raised by the load methods with no message
argument, hence the `Option String` payload. -/
inductive SrosError where
  | mergeFail (msg : Option String)
  | replaceFail (msg : Option String)
  | sessionLocked
  | connectionErr
deriving DecidableEq

/-- Embedding of `_lock_config` (lines 140-146): a no-op when `self.locked`
is already set; otherwise issues the NETCONF lock RPC (modelled as accepted
by the device) and sets the flag. -/
def lock_config (s : DriverState) : DriverState × List Event :=
  if s.locked then (s, []) else ({ s with locked := true }, [Event.lockRpc])

/-- Embedding of `_unlock_config` (lines 148-154): a no-op when
`self.locked` is not set; otherwise issues the unlock RPC and clears the
flag. -/
def unlock_config (s : DriverState) : DriverState × List Event :=
  if s.locked then ({ s with locked := false }, [Event.unlockRpc]) else (s, [])

/-- Embedding of `_determinne_config_format` (lines 297-300, keeping the
source's spelling): `config.strip().startswith("<")` selects `"xml"`,
anything else `"text"`. -/
def determinne_config_format (config : String) : String :=
  if List.isPrefixOf ['<'] (rstripOn isPyWs (lstripChars config.data)) then "xml" else "text"

/-- Embedding of `load_merge_candidate` (lines 302-338) with
`filename=None`, on the success path of `etree.XML`, `edit_config` and
`validate` (their failures propagate unchanged and touch neither the lock
flag nor the scan).  Structured branch: lock (unless disabled by either
flag), `edit-config` with `default-operation="merge"`, then `validate`.
Text branch: the payload is split on the literal separator `" \n "`,
`"edit-config exclusive"` is inserted in front, the batch is executed, and
`MergeConfigException()` (no message argument) is raised as soon as an
output line contains `"MINOR: "`. -/
def load_merge_candidate (cfg : Config) (shell : ShellOracle) (config : String)
    (s : DriverState) : DriverState × List Event × Except SrosError Unit :=
  let fmt := determinne_config_format config
  let s1 : DriverState := { s with fmt := some fmt }
  if fmt = "xml" then
    let lockStep :=
      if !cfg.lock_disable && !cfg.session_config_lock then lock_config s1 else (s1, [])
    (lockStep.1, lockStep.2 ++ [Event.editConfig "merge", Event.validateRpc], Except.ok ())
  else
    let batch := "edit-config exclusive" :: pySplit config " \n "
    let buff := shell batch
    (s1, [Event.cli batch],
      if (pySplit buff "\n").any (fun item => pyIn "MINOR: " item) then
        Except.error (SrosError.mergeFail none)
      else Except.ok ())

/-- Embedding of `load_replace_candidate` (lines 340-378) with
`filename=None`, on the success path of the NETCONF RPCs.  Structured
branch: lock (unless disabled), `edit-config` with
`default-operation="replace"`, then `validate`.  Text branch: the payload is
split on `"\n"`, `"edit-config exclusive"` and `"delete configure"` are
inserted at positions 0 and 1, the batch is executed, and
`ReplaceConfigException()` is raised as soon as an output line contains the
bare marker `"MINOR"` (note: without the colon-space used by the merge
path). -/
def load_replace_candidate (cfg : Config) (shell : ShellOracle) (config : String)
    (s : DriverState) : DriverState × List Event × Except SrosError Unit :=
  let fmt := determinne_config_format config
  let s1 : DriverState := { s with fmt := some fmt }
  if fmt = "xml" then
    let lockStep :=
      if !cfg.lock_disable && !cfg.session_config_lock then lock_config s1 else (s1, [])
    (lockStep.1, lockStep.2 ++ [Event.editConfig "replace", Event.validateRpc], Except.ok ())
  else
    let batch := "edit-config exclusive" :: "delete configure" :: pySplit config "\n"
    let buff := shell batch
    (s1, [Event.cli batch],
      if (pySplit buff "\n").any (fun item => pyIn "MINOR" item) then
        Except.error (SrosError.replaceFail none)
      else Except.ok ())

/-- Embedding of `commit_config` (lines 219-240).  Text format: executes the
`commit` CLI command (the error text scanned out of the buffer is printed,
not raised, and is not modelled further).  Xml format: NETCONF `commit`,
then unlock unless disabled.  Any other `self.fmt` (e.g. `None`) does
nothing. -/
def commit_config (cfg : Config) (s : DriverState) : DriverState × List Event :=
  if s.fmt = some "text" then
    (s, [Event.cli ["commit"]])
  else if s.fmt = some "xml" then
    let unlockStep :=
      if !cfg.lock_disable && !cfg.session_config_lock then unlock_config s else (s, [])
    (unlockStep.1, Event.commitRpc :: unlockStep.2)
  else (s, [])

/-- Embedding of `discard_config` (lines 208-217): NETCONF
`discard-changes` when the format is xml, the `discard` CLI command
otherwise; then unlock unless disabled. -/
def discard_config (cfg : Config) (s : DriverState) : DriverState × List Event :=
  let step : DriverState × List Event :=
    if s.fmt = some "xml" then (s, [Event.discardRpc]) else (s, [Event.cli ["discard"]])
  let unlockStep :=
    if !cfg.lock_disable && !cfg.session_config_lock then unlock_config step.1 else (step.1, [])
  (unlockStep.1, step.2 ++ unlockStep.2)

/-- The fixed command sequence of `rollback` (line 246). -/
def rollback_cmds : List String :=
  ["quit-config", "configure exclusive", "rollback 1", "commit", "exit"]

/-- The scan loop of `rollback` (lines 248-256): lines containing the benign
marker `"MINOR: CLI #2069"` are skipped; the first remaining line containing
`"MINOR: "` is stripped and returned (`new_buff` is empty when it is
appended); falling off the loop returns Python `None`. -/
def rollback_scan : List String → Option String
  | [] => none
  | item :: rest =>
    if pyIn "MINOR: CLI #2069" item then rollback_scan rest
    else if pyIn "MINOR: " item then some (pyStrip item)
    else rollback_scan rest

/-- Embedding of `rollback` (lines 242-256): executes the five-command batch
and scans its output (`buff is not None` always holds, `_perform_cli_commands`
returns a string). -/
def rollback (shell : ShellOracle) : List Event × Option String :=
  let buff := shell rollback_cmds
  ([Event.cli rollback_cmds], rollback_scan (pySplit buff "\n"))

/-- The loop body chain of `compare_config` (lines 271-292), with
`first_compare` threaded as `fc` and `new_buff` as `acc`: a `"MINOR: "` line
is stripped, appended and the loop breaks; the first line containing
`"compare"` flips `first_compare` and is dropped; lines containing
`"(ex)[]"` or `"environment more false"` or matching the prompt pattern are
dropped; remaining lines are right-stripped, dropped if empty,
left-stripped when they contain `"configure"`, and appended with a trailing
newline. -/
def compare_collect : List String → Bool → String → String
  | [], _, acc => acc
  | item :: rest, fc, acc =>
    if pyIn "MINOR: " item then acc ++ pyStrip item
    else if !fc && pyIn "compare" item then compare_collect rest true acc
    else if pyIn "(ex)[]" item then compare_collect rest fc acc
    else if pyIn "environment more false" item then compare_collect rest fc acc
    else if cmd_line_matches item then compare_collect rest fc acc
    else
      let row := pyRstrip item
      if row = "" then compare_collect rest fc acc
      else
        let row2 := if pyIn "configure" row then pyLstrip row else row
        compare_collect rest fc (acc ++ row2 ++ "\n")

/-- Embedding of `compare_config` (lines 258-295): the two-command batch is
executed only when `self.fmt == "text"` (otherwise `buff` stays `""`); the
collected text is returned with `.rstrip("\n")`. -/
def compare_config (fmt : Option String) (shell : ShellOracle) : List Event × String :=
  let buff := if fmt = some "text" then shell ["environment more false", "compare"] else ""
  let evs : List Event :=
    if fmt = some "text" then [Event.cli ["environment more false", "compare"]] else []
  (evs, pyRstripNl (compare_collect (pySplit buff "\n") false ""))

/-! ### Connection lifecycle: `open` and `is_alive` -/

/-- Outcome of the `manager.connect(...)` call in `open` (lines 88-99), as
seen through the driver's `except ConnectionException` clause. -/
inductive ConnectOutcome where
  | success
  | connectionFailure (msg : String)
deriving DecidableEq

/-- Whether `self.conn` holds a NETCONF session object (`None` ↦ `false`). -/
structure OpenState where
  conn : Bool
deriving DecidableEq

/-- Embedding of `open` (lines 85-103): on success `self.conn` is set; a
`ConnectionException` from the connect call is caught by the
`except ConnectionException` clause, which only logs — the method then
returns normally (`Except.ok`) and `self.conn` keeps its previous value
(`None` on a fresh driver). -/
def open_driver (o : ConnectOutcome) (s : OpenState) : OpenState × Except SrosError Unit :=
  match o with
  | ConnectOutcome.success => ({ conn := true }, Except.ok ())
  | ConnectOutcome.connectionFailure _ => (s, Except.ok ())

/-- Outcome of the paramiko `connect` + `invoke_shell` calls inside
`_create_ssh` (lines 110-119); a failure there propagates as an
exception. -/
inductive SshConnect where
  | ok
  | fail
deriving DecidableEq

/-- SSH-side state: whether `self.conn_ssh` is not `None`, and whether its
transport reports `is_active()`. -/
structure SshState where
  conn_ssh : Bool
  transport_active : Bool
deriving DecidableEq

/-- Embedding of `_create_ssh` (lines 110-119): `self.conn_ssh` is assigned
the fresh `SSHClient()` before `connect` runs, so it is non-`None` even when
the connect attempt then raises. -/
def create_ssh (o : SshConnect) (s : SshState) : SshState × Except SrosError Unit :=
  let s1 : SshState := { s with conn_ssh := true }
  match o with
  | SshConnect.ok => ({ s1 with transport_active := true }, Except.ok ())
  | SshConnect.fail => (s1, Except.error SrosError.connectionErr)

/-- Embedding of the connection-management prologue of
`_perform_cli_commands` (lines 121-138): the SSH connection is recreated
when `self.conn_ssh` is `None` or its transport is not active; the
send/poll loop is abstracted by the `out` oracle string returned on
success. -/
def perform_cli_commands (o : SshConnect) (out : String)
    (s : SshState) : SshState × Except SrosError String :=
  let is_alive := s.conn_ssh && s.transport_active
  if is_alive then (s, Except.ok out)
  else
    match create_ssh o s with
    | (s2, Except.ok _) => (s2, Except.ok out)
    | (s2, Except.error e) => (s2, Except.error e)

/-- Embedding of `is_alive` (lines 192-206): runs
`_perform_cli_commands(["environment more false"])`, then returns the dict
value `True` when `self.conn_ssh` is not `None` and `False` otherwise; an
exception from the CLI step propagates. -/
def is_alive_op (o : SshConnect) (out : String)
    (s : SshState) : SshState × Except SrosError Bool :=
  match perform_cli_commands o out s with
  | (s2, Except.ok _) => (s2, Except.ok (if s2.conn_ssh then true else false))
  | (s2, Except.error e) => (s2, Except.error e)

/-! ### Derived combinators and spec-side reference definitions -/

/-- A sequence of consecutive load calls on one session with no intervening
commit or discard: a `true` entry issues `load_merge_candidate`, a `false`
entry `load_replace_candidate`; shell outputs and the payload are held
fixed and the event traces are concatenated in order. -/
def runLoads (cfg : Config) (shell : ShellOracle) (config : String) :
    List Bool → DriverState → DriverState × List Event
  | [], s => (s, [])
  | isMerge :: rest, s =>
    let r := if isMerge then load_merge_candidate cfg shell config s
             else load_replace_candidate cfg shell config s
    let next := runLoads cfg shell config rest r.1
    (next.1, r.2.1 ++ next.2)

/-- Number of NETCONF lock RPCs in an event trace. -/
def countLocks (evs : List Event) : Nat :=
  evs.countP (fun e => match e with | Event.lockRpc => true | _ => false)

/-- Spec-side characterization of the line `rollback` reports: it contains
`"MINOR: "` but not the benign marker `"MINOR: CLI #2069"`. -/
def minor_nonbenign (item : String) : Bool :=
  pyIn "MINOR: " item && !pyIn "MINOR: CLI #2069" item

/-- Spec-side reference for the compare filter: drop the first line that
contains `"compare"` (the echo of the `compare` command). -/
def dropFirstCompare : List String → List String
  | [] => []
  | l :: ls => if pyIn "compare" l then ls else l :: dropFirstCompare ls

/-- Spec-side reference for the per-line compare filter once the `compare`
echo is gone: drop placeholder, echo, prompt and blank lines; right-strip
kept lines and left-strip those containing `"configure"`. -/
def keepLine (item : String) : Option String :=
  if pyIn "(ex)[]" item then none
  else if pyIn "environment more false" item then none
  else if cmd_line_matches item then none
  else
    let row := pyRstrip item
    if row = "" then none
    else some (if pyIn "configure" row then pyLstrip row else row)

/-- Join rows, terminating each with a newline. -/
def renderRows : List String → String
  | [] => ""
  | r :: rs => r ++ "\n" ++ renderRows rs

/-- Default optional-arg configuration: `lock_disable=False`,
`config_lock=False`. -/
def cfgDefault : Config :=
  ⟨false, false⟩

/-- A fresh session state: lock not believed held, no format selected. -/
def freshState : DriverState :=
  ⟨false, none⟩

/-! ### General helper lemmas -/

theorem string_append_empty (s : String) : s ++ "" = s := by
  apply String.ext
  rw [String.data_append]
  simp

theorem string_append_assoc (a b c : String) : a ++ b ++ c = a ++ (b ++ c) := by
  apply String.ext
  simp [String.data_append]

theorem string_empty_append (s : String) : "" ++ s = s := by
  apply String.ext
  rw [String.data_append]
  rfl

theorem dropWhile_head_false (p : Char → Bool) :
    ∀ (l : List Char) (c : Char), (l.dropWhile p).head? = some c → p c = false := by
  intro l
  induction l with
  | nil => intro c h; simp [List.dropWhile] at h
  | cons a t ih =>
    intro c h
    rw [List.dropWhile_cons] at h
    by_cases hp : p a
    · exact ih c (by simpa [hp] using h)
    · simp [hp] at h
      simpa [← h] using hp

theorem rstripOn_head (p : Char → Bool) (c : Char) (t : List Char) (hc : p c = false) :
    ∃ r, rstripOn p (c :: t) = c :: r := by
  simp only [rstripOn]
  cases he : (rstripOn p t).isEmpty
  · exact ⟨rstripOn p t, by simp [he]⟩
  · exact ⟨[], by simp [he, hc]⟩

theorem rstripOn_getLast_not (p : Char → Bool) :
    ∀ (l : List Char) (c : Char), (rstripOn p l).getLast? = some c → p c = false := by
  intro l
  induction l with
  | nil => intro c h; simp [rstripOn] at h
  | cons a t ih =>
    intro c h
    simp only [rstripOn] at h
    cases he : (rstripOn p t).isEmpty
    · rw [he] at h
      simp only [Bool.false_eq_true, if_false] at h
      cases hr : rstripOn p t with
      | nil => rw [hr] at he; simp at he
      | cons b bs =>
        rw [hr] at h
        rw [List.getLast?_cons_cons] at h
        exact ih c (by rw [hr]; exact h)
    · rw [he] at h
      simp only [if_true] at h
      by_cases hp : p a
      · simp [hp] at h
      · simp [hp] at h
        subst h
        simpa using hp

/-- The format test `config.strip().startswith("<")` holds exactly when the
first non-whitespace character of the payload is `<`. -/
theorem strip_startswith_lt (l : List Char) :
    List.isPrefixOf ['<'] (rstripOn isPyWs (lstripChars l)) = true ↔
      (l.dropWhile isPyWs).head? = some '<' := by
  unfold lstripChars
  cases hm : l.dropWhile isPyWs with
  | nil => simp [hm, rstripOn, List.isPrefixOf]
  | cons c t =>
    have hc : isPyWs c = false :=
      dropWhile_head_false isPyWs l c (by rw [hm]; rfl)
    obtain ⟨r, hr⟩ := rstripOn_head isPyWs c t hc
    rw [hr]
    have hpre : List.isPrefixOf ['<'] (c :: r) = ('<' == c) := by
      simp [List.isPrefixOf]
    rw [hpre]
    constructor
    · intro h
      have h2 : '<' = c := beq_iff_eq.mp h
      simp [← h2]
    · intro h
      have h2 : c = '<' := by simpa using h
      rw [h2]
      decide

/-! ### Claims -/

/-- C1: for every tree, path, default value, and namespace map (abstracted
into the xpath-call outcome), `_find_txt` never propagates an exception to
its caller: on any successful evaluation it returns a string, and when the
xpath evaluation raises any error it catches the error, logs it, and
returns the default instead of raising. -/
theorem find_txt_never_raises (items : List XPathItem) (e d : String) :
    (∃ v, find_txt (XPathOutcome.ok items) d = Except.ok v)
    ∧ find_txt (XPathOutcome.err e) d = Except.ok d :=
  ⟨⟨find_txt_extract items, rfl⟩, rfl⟩

/-- C2, counterexample: with the non-empty default `"N/A"` and a path that
has no match (empty xpath result list), `_find_txt` returns `""`, not the
supplied default. -/
theorem find_txt_missing_path_cex :
    find_txt (XPathOutcome.ok []) "N/A" = Except.ok ""
    ∧ ("" : String) ≠ "N/A" :=
  ⟨rfl, by decide⟩

/-- C2, amended: `_find_txt` returns the supplied default only when the
xpath evaluation raises (malformed expression, bad input, ...); a missing
path yields the empty string regardless of the default; a non-element first
match is returned as-is; an element first match yields its stripped text,
or the empty string when the node has no text. -/
theorem find_txt_default_amended (e d t v : String) (rest : List XPathItem) :
    find_txt (XPathOutcome.err e) d = Except.ok d
    ∧ find_txt (XPathOutcome.ok []) d = Except.ok ""
    ∧ find_txt (XPathOutcome.ok (XPathItem.prim v :: rest)) d = Except.ok v
    ∧ find_txt (XPathOutcome.ok (XPathItem.element (some t) :: rest)) d
        = Except.ok (pyStrip t)
    ∧ find_txt (XPathOutcome.ok (XPathItem.element none :: rest)) d = Except.ok "" :=
  ⟨rfl, rfl, rfl, rfl, rfl⟩

/-- C6: evaluating `open` at a failing connection attempt (the connect call
raises `ConnectionException`): the `except` clause catches the failure and
only logs, so `open` returns normally and the session is left with no
NETCONF connection — the failure does not propagate to the caller, contrary
to the claim and the NAPALM driver contract. -/
theorem open_swallows_connection_failure :
    open_driver (ConnectOutcome.connectionFailure "connection refused") { conn := false }
      = ({ conn := false }, Except.ok ()) :=
  rfl

/-- C7: on the text path, `load_replace_candidate` executes through the
shell exactly the batch consisting of the enter-exclusive-edit command, the
delete-existing-configuration command, and then the payload lines in
order. -/
theorem replace_text_batch_exact (cfg : Config) (shell : ShellOracle) (config : String)
    (s : DriverState) (hfmt : determinne_config_format config = "text") :
    (load_replace_candidate cfg shell config s).2.1 =
      [Event.cli ("edit-config exclusive" :: "delete configure" :: pySplit config "\n")] := by
  have hne : determinne_config_format config ≠ "xml" := by rw [hfmt]; decide
  simp only [load_replace_candidate]
  rw [if_neg hne]

/-- C7 witness: `loadReplace(config="configure system name R1")` executes
the batch `["edit-config exclusive", "delete configure",
"configure system name R1"]`. -/
theorem replace_text_batch_exact_witness :
    (load_replace_candidate cfgDefault (fun _ => "") "configure system name R1" freshState).2.1 =
      [Event.cli ["edit-config exclusive", "delete configure", "configure system name R1"]] := by
  have h := replace_text_batch_exact cfgDefault (fun _ => "") "configure system name R1"
    freshState (by decide)
  rw [h]
  decide

/-- C3: for every payload passed to loadMerge/loadReplace: if the first
non-whitespace character is `<`, format detection selects the structured
(`"xml"`) path, otherwise the `"text"` path; both load methods record the
detected format in the session state, and that recorded format selects
which branch the subsequent commit/discard takes (NETCONF RPC vs CLI
command). -/
theorem format_detection_selects_branch (cfg : Config) (shell : ShellOracle)
    (config : String) (s : DriverState) :
    ((config.data.dropWhile isPyWs).head? = some '<' →
        determinne_config_format config = "xml")
    ∧ ((config.data.dropWhile isPyWs).head? ≠ some '<' →
        determinne_config_format config = "text")
    ∧ (load_merge_candidate cfg shell config s).1.fmt
        = some (determinne_config_format config)
    ∧ (load_replace_candidate cfg shell config s).1.fmt
        = some (determinne_config_format config)
    ∧ (∀ t : DriverState, t.fmt = some "xml" →
        (commit_config cfg t).2.head? = some Event.commitRpc
        ∧ (discard_config cfg t).2.head? = some Event.discardRpc)
    ∧ (∀ t : DriverState, t.fmt = some "text" →
        (commit_config cfg t).2 = [Event.cli ["commit"]]
        ∧ (discard_config cfg t).2.head? = some (Event.cli ["discard"])) := by
  refine ⟨?_, ?_, ?_, ?_, ?_, ?_⟩
  · intro h
    have hb := (strip_startswith_lt config.data).mpr h
    simp [determinne_config_format, hb]
  · intro h
    have hb : List.isPrefixOf ['<'] (rstripOn isPyWs (lstripChars config.data)) = false := by
      cases hb : List.isPrefixOf ['<'] (rstripOn isPyWs (lstripChars config.data))
      · rfl
      · exact absurd ((strip_startswith_lt config.data).mp hb) h
    simp [determinne_config_format, hb]
  · simp only [load_merge_candidate, lock_config]
    split_ifs <;> rfl
  · simp only [load_replace_candidate, lock_config]
    split_ifs <;> rfl
  · intro t ht
    have hne : t.fmt ≠ some "text" := by rw [ht]; decide
    constructor
    · simp only [commit_config, if_neg hne, if_pos ht, unlock_config]
      split_ifs <;> rfl
    · simp only [discard_config, if_pos ht, unlock_config]
      split_ifs <;> rfl
  · intro t ht
    have hne : t.fmt ≠ some "xml" := by rw [ht]; decide
    constructor
    · simp only [commit_config, if_pos ht]
    · simp only [discard_config, if_neg hne, unlock_config]
      split_ifs <;> rfl

/-- C3 witness: a payload whose first non-whitespace character is `<` is
detected as structured; one that starts otherwise is detected as text. -/
theorem format_detection_selects_branch_witness :
    determinne_config_format "  <configure/>" = "xml"
    ∧ determinne_config_format "configure system name R1" = "text" :=
  ⟨(format_detection_selects_branch cfgDefault (fun _ => "") "  <configure/>"
      freshState).1 (by decide),
   (format_detection_selects_branch cfgDefault (fun _ => "") "configure system name R1"
      freshState).2.1 (by decide)⟩

/-- Lock and state effect of one structured-path load call (merge when `b`,
replace otherwise): it emits one lock RPC exactly when locking is enabled
and the believed-lock-held flag is clear, and afterwards the flag is set
whenever it was set before or locking is enabled. -/
theorem load_step_lock_count (cfg : Config) (shell : ShellOracle) (config : String)
    (s : DriverState) (b : Bool) (hfmt : determinne_config_format config = "xml") :
    countLocks (if b then load_merge_candidate cfg shell config s
                else load_replace_candidate cfg shell config s).2.1 =
      (if (!cfg.lock_disable && !cfg.session_config_lock) && !s.locked then 1 else 0)
    ∧ (if b then load_merge_candidate cfg shell config s
       else load_replace_candidate cfg shell config s).1.locked =
        (s.locked || (!cfg.lock_disable && !cfg.session_config_lock)) := by
  cases b <;>
    simp only [if_true, if_false, Bool.false_eq_true, load_merge_candidate,
      load_replace_candidate, hfmt, lock_config] <;>
    cases hE : (!cfg.lock_disable && !cfg.session_config_lock) <;>
    cases hsl : s.locked <;>
    simp [countLocks, List.countP_cons, List.countP_append, hE, hsl]

/-- Lock discipline over a whole sequence of structured-path loads: the
number of lock RPCs is one when locking is enabled, the flag starts clear
and at least one load runs, and zero otherwise; the final flag value is the
initial one, or set as soon as locking is enabled and a load ran. -/
theorem runLoads_lock_invariant (cfg : Config) (shell : ShellOracle) (config : String)
    (hfmt : determinne_config_format config = "xml") :
    ∀ (choices : List Bool) (s : DriverState),
      countLocks (runLoads cfg shell config choices s).2 =
        (if (!cfg.lock_disable && !cfg.session_config_lock) && !s.locked && !choices.isEmpty
         then 1 else 0)
      ∧ (runLoads cfg shell config choices s).1.locked =
          (s.locked || ((!cfg.lock_disable && !cfg.session_config_lock) && !choices.isEmpty)) := by
  intro choices
  induction choices with
  | nil => intro s; simp [runLoads, countLocks]
  | cons b rest ih =>
    intro s
    obtain ⟨h1, h2⟩ := load_step_lock_count cfg shell config s b hfmt
    obtain ⟨ih1, ih2⟩ := ih (if b then load_merge_candidate cfg shell config s
      else load_replace_candidate cfg shell config s).1
    simp only [runLoads]
    rw [countLocks, List.countP_append, ← countLocks, ← countLocks, h1, ih1, ih2, h2]
    rw [h2] at ih1 ih2
    cases hE : (!cfg.lock_disable && !cfg.session_config_lock) <;>
      cases hsl : s.locked <;>
      simp [hE, hsl]

/-- C4: for every non-empty sequence of consecutive structured-path
loadMerge/loadReplace calls on one session without an intervening commit or
discard, starting with the believed-lock-held flag clear, the remote lock
is acquired exactly once — zero times if locking is disabled by
configuration — never once per call; acquiring while the flag is set is a
no-op, and releasing while it is clear is a no-op. -/
theorem lock_acquired_once (cfg : Config) (shell : ShellOracle) (config : String)
    (choices : List Bool) (s : DriverState)
    (hfmt : determinne_config_format config = "xml")
    (hl : s.locked = false) (hne : choices ≠ []) :
    countLocks (runLoads cfg shell config choices s).2 =
      (if !cfg.lock_disable && !cfg.session_config_lock then 1 else 0)
    ∧ (∀ t : DriverState, t.locked = true → lock_config t = (t, []))
    ∧ (∀ t : DriverState, t.locked = false → unlock_config t = (t, [])) := by
  refine ⟨?_, ?_, ?_⟩
  · have h := (runLoads_lock_invariant cfg shell config hfmt choices s).1
    have hie : choices.isEmpty = false := by
      cases choices
      · exact absurd rfl hne
      · rfl
    rw [h, hl, hie]
    cases (!cfg.lock_disable && !cfg.session_config_lock) <;> simp
  · intro t ht
    simp [lock_config, ht]
  · intro t ht
    simp [unlock_config, ht]

/-- C4 witness: three consecutive structured loads (merge, merge, replace)
on a fresh session with locking enabled acquire the lock exactly once. -/
theorem lock_acquired_once_witness :
    countLocks (runLoads cfgDefault (fun _ => "") "<configure/>" [true, true, false]
      freshState).2 = 1 := by
  have h := (lock_acquired_once cfgDefault (fun _ => "") "<configure/>" [true, true, false]
    freshState (by decide) rfl (by decide)).1
  simpa [cfgDefault] using h

/-- C5, counterexample: on the text path, an output line
`"MINOR: 123: bad input"` makes `load_merge_candidate` raise
`MergeConfigException()` with no message argument — the failure does not
carry the extracted message `"bad input"`; moreover `load_replace_candidate`
raises on an output line containing the bare substring `"MINOR"` even when
no line contains `"MINOR: "`, refuting the claimed iff. -/
theorem text_load_minor_cex :
    (load_merge_candidate cfgDefault (fun _ => "MINOR: 123: bad input")
        "configure system name R1" freshState).2.2
      = Except.error (SrosError.mergeFail none)
    ∧ SrosError.mergeFail none ≠ SrosError.mergeFail (some "bad input")
    ∧ (load_replace_candidate cfgDefault (fun _ => "MINORITY report")
        "configure system name R1" freshState).2.2
      = Except.error (SrosError.replaceFail none)
    ∧ (pySplit "MINORITY report" "\n").any (fun item => pyIn "MINOR: " item) = false :=
  ⟨rfl, by decide, rfl, by decide⟩

/-- C5, amended: on the text path, `load_merge_candidate` raises a merge
failure iff some output line contains `"MINOR: "`, while
`load_replace_candidate` raises a replace failure iff some output line
contains the bare marker `"MINOR"`; in both cases the raised failure
carries no extracted message text (the third-colon-field message extraction
happens only in `commit_config`). -/
theorem text_load_minor_amended (cfg : Config) (shell : ShellOracle) (config : String)
    (s : DriverState) (hfmt : determinne_config_format config = "text") :
    ((load_merge_candidate cfg shell config s).2.2
        = Except.error (SrosError.mergeFail none)
      ↔ (pySplit (shell ("edit-config exclusive" :: pySplit config " \n ")) "\n").any
          (fun item => pyIn "MINOR: " item) = true)
    ∧ ((load_replace_candidate cfg shell config s).2.2
        = Except.error (SrosError.replaceFail none)
      ↔ (pySplit (shell ("edit-config exclusive" :: "delete configure" ::
            pySplit config "\n")) "\n").any (fun item => pyIn "MINOR" item) = true)
    ∧ (∀ m : String, (load_merge_candidate cfg shell config s).2.2
        ≠ Except.error (SrosError.mergeFail (some m)))
    ∧ (∀ m : String, (load_replace_candidate cfg shell config s).2.2
        ≠ Except.error (SrosError.replaceFail (some m))) := by
  have hne : determinne_config_format config ≠ "xml" := by rw [hfmt]; decide
  simp only [load_merge_candidate, load_replace_candidate, if_neg hne]
  refine ⟨?_, ?_, ?_, ?_⟩
  · cases h : (pySplit (shell ("edit-config exclusive" :: pySplit config " \n ")) "\n").any
        (fun item => pyIn "MINOR: " item) <;> simp [h]
  · cases h : (pySplit (shell ("edit-config exclusive" :: "delete configure" ::
        pySplit config "\n")) "\n").any (fun item => pyIn "MINOR" item) <;> simp [h]
  · intro m
    cases h : (pySplit (shell ("edit-config exclusive" :: pySplit config " \n ")) "\n").any
        (fun item => pyIn "MINOR: " item) <;> simp [h]
  · intro m
    cases h : (pySplit (shell ("edit-config exclusive" :: "delete configure" ::
        pySplit config "\n")) "\n").any (fun item => pyIn "MINOR" item) <;> simp [h]

/-- C5 witness: with a shell output containing the line `"MINOR: 5: oops"`,
the amended equivalence instantiates to an actual merge failure. -/
theorem text_load_minor_amended_witness :
    (load_merge_candidate cfgDefault (fun _ => "ok\nMINOR: 5: oops")
        "configure system name R1" freshState).2.2
      = Except.error (SrosError.mergeFail none)
      ↔ (pySplit "ok\nMINOR: 5: oops" "\n").any (fun item => pyIn "MINOR: " item) = true :=
  (text_load_minor_amended cfgDefault (fun _ => "ok\nMINOR: 5: oops")
    "configure system name R1" freshState (by decide)).1

/-- The `rollback` scan loop returns the stripped first line that contains
`"MINOR: "` but not the benign marker, or `None` when there is none. -/
theorem rollback_scan_eq_find :
    ∀ lines : List String,
      rollback_scan lines = (lines.find? minor_nonbenign).map pyStrip := by
  intro lines
  induction lines with
  | nil => rfl
  | cons item rest ih =>
    by_cases h1 : pyIn "MINOR: CLI #2069" item
    · have hp : minor_nonbenign item = false := by simp [minor_nonbenign, h1]
      simp [rollback_scan, h1, List.find?_cons, hp, ih]
    · by_cases h2 : pyIn "MINOR: " item
      · have hp : minor_nonbenign item = true := by simp [minor_nonbenign, h1, h2]
        simp [rollback_scan, h1, h2, List.find?_cons, hp]
      · have hp : minor_nonbenign item = false := by simp [minor_nonbenign, h2]
        simp [rollback_scan, h1, h2, List.find?_cons, hp, ih]

/-- C8, counterexample: `rollback` output consisting of the line
`"MINOR: 4: rollback failed"` makes `rollback` return the entire stripped
line, not that line's message — the third colon-delimited field, which the
spec's error-marker convention defines and `commit_config` extracts, would
be `"rollback failed"`. -/
theorem rollback_message_cex :
    (rollback (fun _ => "MINOR: 4: rollback failed")).2
      = some "MINOR: 4: rollback failed"
    ∧ pySplit "MINOR: 4: rollback failed" ": " = ["MINOR", "4", "rollback failed"]
    ∧ (some "MINOR: 4: rollback failed" : Option String) ≠ some "rollback failed" :=
  ⟨rfl, by decide, by decide⟩

/-- C8, amended: `rollback` executes exactly the five-command sequence
`quit-config`, `configure exclusive`, `rollback 1`, `commit`, `exit` and
returns the entire first stripped output line containing `"MINOR: "` other
than lines containing the benign marker `"MINOR: CLI #2069"` (the full
line, not just its third colon-delimited message field); it returns nothing
(`None`) when no such line exists, in particular when the output contains
only benign marker lines. -/
theorem rollback_first_minor_line (shell : ShellOracle) :
    (rollback shell).1 =
      [Event.cli ["quit-config", "configure exclusive", "rollback 1", "commit", "exit"]]
    ∧ (rollback shell).2 =
        ((pySplit (shell rollback_cmds) "\n").find? minor_nonbenign).map pyStrip :=
  ⟨rfl, rollback_scan_eq_find _⟩

/-- C8 witness: a benign marker line followed by a genuine `"MINOR: "` line
instantiates the amended description, returning the second line whole. -/
theorem rollback_first_minor_line_witness :
    (rollback (fun _ => "MINOR: CLI #2069 ignore\nMINOR: 7: failed")).2 =
      ((pySplit "MINOR: CLI #2069 ignore\nMINOR: 7: failed" "\n").find?
        minor_nonbenign).map pyStrip :=
  (rollback_first_minor_line (fun _ => "MINOR: CLI #2069 ignore\nMINOR: 7: failed")).2

/-- The compare loop with `first_compare` already set equals the per-line
filter pipeline, provided no line carries the error marker. -/
theorem compare_collect_true_eq :
    ∀ lines : List String, (∀ l ∈ lines, pyIn "MINOR: " l = false) →
      ∀ acc, compare_collect lines true acc
        = acc ++ renderRows (lines.filterMap keepLine) := by
  intro lines
  induction lines with
  | nil => intro _ acc; simp [compare_collect, renderRows, string_append_empty]
  | cons item rest ih =>
    intro h acc
    have hm : pyIn "MINOR: " item = false := h item (List.mem_cons_self item rest)
    have hrest : ∀ l ∈ rest, pyIn "MINOR: " l = false :=
      fun l hl => h l (List.mem_cons_of_mem item hl)
    simp only [compare_collect, hm, Bool.false_eq_true, if_false, Bool.not_true,
      Bool.false_and, List.filterMap_cons]
    by_cases h1 : pyIn "(ex)[]" item
    · simp only [keepLine, h1, if_true]
      simpa [h1] using ih hrest acc
    · by_cases h2 : pyIn "environment more false" item
      · simp only [keepLine, h1, h2]
        simpa [h1, h2] using ih hrest acc
      · by_cases h3 : cmd_line_matches item
        · simp only [keepLine, h1, h2, h3]
          simpa [h1, h2, h3] using ih hrest acc
        · by_cases h4 : pyRstrip item = ""
          · simp only [keepLine, h1, h2, h3, h4]
            simpa [h1, h2, h3, h4] using ih hrest acc
          · simp only [keepLine, h1, h2, h3, h4]
            simp only [h1, h2, h3, h4, Bool.false_eq_true, if_false, ite_false]
            rw [ih hrest]
            simp [renderRows, string_append_assoc]

/-- The compare loop from its initial state equals dropping the first
`"compare"` echo line and then applying the per-line filter pipeline,
provided no line carries the error marker. -/
theorem compare_collect_false_eq :
    ∀ lines : List String, (∀ l ∈ lines, pyIn "MINOR: " l = false) →
      ∀ acc, compare_collect lines false acc
        = acc ++ renderRows ((dropFirstCompare lines).filterMap keepLine) := by
  intro lines
  induction lines with
  | nil => intro _ acc; simp [compare_collect, dropFirstCompare, renderRows, string_append_empty]
  | cons item rest ih =>
    intro h acc
    have hm : pyIn "MINOR: " item = false := h item (List.mem_cons_self item rest)
    have hrest : ∀ l ∈ rest, pyIn "MINOR: " l = false :=
      fun l hl => h l (List.mem_cons_of_mem item hl)
    by_cases hc : pyIn "compare" item
    · simp only [compare_collect, hm, Bool.false_eq_true, if_false, Bool.not_false,
        Bool.true_and, hc, if_true, dropFirstCompare]
      exact compare_collect_true_eq rest hrest acc
    · simp only [compare_collect, hm, Bool.false_eq_true, if_false, Bool.not_false,
        Bool.true_and, hc, dropFirstCompare, List.filterMap_cons]
      by_cases h1 : pyIn "(ex)[]" item
      · simp only [keepLine, h1, if_true]
        simpa [h1] using ih hrest acc
      · by_cases h2 : pyIn "environment more false" item
        · simp only [keepLine, h1, h2]
          simpa [h1, h2] using ih hrest acc
        · by_cases h3 : cmd_line_matches item
          · simp only [keepLine, h1, h2, h3]
            simpa [h1, h2, h3] using ih hrest acc
          · by_cases h4 : pyRstrip item = ""
            · simp only [keepLine, h1, h2, h3, h4]
              simpa [h1, h2, h3, h4] using ih hrest acc
            · simp only [keepLine, h1, h2, h3, h4]
              simp only [h1, h2, h3, h4, Bool.false_eq_true, if_false, ite_false]
              rw [ih hrest]
              simp [renderRows, string_append_assoc]

/-- Right-stripping newlines leaves no trailing newline. -/
theorem pyRstripNl_no_trailing (s : String) :
    (pyRstripNl s).data.getLast? ≠ some '\n' := by
  intro h
  have := rstripOn_getLast_not _ s.data '\n' h
  simp at this

/-- C9, counterexample: a raw output line consisting of the bare bracketed
placeholder `"[]"` (without the `"(ex)"` prefix the shell echo carries) is
kept by `compare_config`, so not all bracketed placeholder lines are
removed; moreover when the active format is not text the two-command
sequence is not executed at all. -/
theorem compare_placeholder_cex :
    (compare_config (some "text") (fun _ => "[]")).2 = "[]"
    ∧ ("[]" : String) ≠ ""
    ∧ (compare_config none (fun _ => "output")).1 = [] :=
  ⟨rfl, by decide, rfl⟩

/-- C9, amended: when the active format is text, `compare_config` executes
the fixed two-command sequence (otherwise it executes nothing), and when the
raw output contains no error-marker lines it returns the output with the
first `"compare"` echo line, every `"environment more false"` echo line,
prompt lines (containing `#` followed by whitespace), lines containing the
placeholder as echoed — `"(ex)[]"`, a bare `"[]"` line is kept — and blank
lines removed, the kept lines right-stripped (and left-stripped when they
contain `"configure"`), newline-joined with no trailing newline. -/
theorem compare_filter_amended (shell : ShellOracle)
    (hnom : ∀ l ∈ pySplit (shell ["environment more false", "compare"]) "\n",
        pyIn "MINOR: " l = false) :
    (compare_config (some "text") shell).1
      = [Event.cli ["environment more false", "compare"]]
    ∧ (compare_config (some "text") shell).2 =
        pyRstripNl (renderRows
          ((dropFirstCompare
              (pySplit (shell ["environment more false", "compare"]) "\n")).filterMap keepLine))
    ∧ ((compare_config (some "text") shell).2).data.getLast? ≠ some '\n'
    ∧ ∀ shell2 : ShellOracle, (compare_config none shell2).1 = [] := by
  have h2 : (compare_config (some "text") shell).2 =
      pyRstripNl (renderRows
        ((dropFirstCompare
            (pySplit (shell ["environment more false", "compare"]) "\n")).filterMap keepLine)) := by
    simp only [compare_config, if_true]
    rw [compare_collect_false_eq _ hnom "", string_empty_append]
  refine ⟨by simp [compare_config], h2, ?_, ?_⟩
  · rw [h2]
    exact pyRstripNl_no_trailing _
  · intro shell2
    simp [compare_config]

/-- C9 witness: a concrete shell transcript with echoes, a placeholder
line, an indented configure line and a blank line instantiates the amended
description. -/
theorem compare_filter_amended_witness :
    (compare_config (some "text")
        (fun _ => "A:node# compare\n(ex)[]\n    configure router x\n\nexit all")).2 =
      pyRstripNl (renderRows
        ((dropFirstCompare
            (pySplit "A:node# compare\n(ex)[]\n    configure router x\n\nexit all" "\n")).filterMap
          keepLine)) :=
  (compare_filter_amended
    (fun _ => "A:node# compare\n(ex)[]\n    configure router x\n\nexit all") (by decide)).2.1

/-- C10: whenever `is_alive` returns a result rather than raising, that
result is `{"is_alive": True}`: the liveness probe first runs a shell
command, which recreates the SSH connection when it is absent or dead, so
`self.conn_ssh` is non-`None` at the check and the `False` branch is
unreachable. -/
theorem is_alive_always_true (o : SshConnect) (out : String) (s : SshState) :
    (is_alive_op o out s).2 = Except.ok true
    ∨ (is_alive_op o out s).2 = Except.error SrosError.connectionErr := by
  rcases s with ⟨cs, ta⟩
  cases o <;> cases cs <;> cases ta <;>
    first
    | exact Or.inl rfl
    | exact Or.inr rfl

end NapalmSros
